import Mathlib

/-
Verification of src/plugins/with-sqlite-vec/sqlite-vec-auto-init.c.

The C file declares two foreign symbols (the extension entry point
sqlite3_vec_init and the vendored registration function
exsqlite3_auto_extension) and defines one constructor hook,
register_sqlite_vec, which writes a start line to stderr, makes one
registration call, and writes one outcome line to stderr depending on the
returned status.

We embed the hook as a function from the behavior of the external
registration call (the integer status it returns) to the finite trace of
externally observable actions the hook performs, together with its (void)
return value.
-/

namespace MarinersAiGrid

/-- Function-pointer values appearing in the translation unit. The only one
is the address of the extension entry point sqlite3_vec_init, declared at
line 15 of the C file. -/
inductive FuncPtr where
  | sqlite3_vec_init
  deriving DecidableEq, Repr

/-- The C cast (sqlite3_loadext_entry)f at line 25: it retypes the function
pointer but leaves its address value unchanged. -/
def castToLoadextEntry (f : FuncPtr) : FuncPtr := f

/-- Externally observable actions a hook in this translation unit can
perform: writing a string to the standard error stream, calling a
registration function (named by its linker symbol) with a function-pointer
argument — the call mutates the process-wide auto-extension state of the
host — or directly invoking a function pointer. -/
inductive Action where
  | writeStderr (s : String)
  | callRegistration (symbol : String) (xEntryPoint : FuncPtr)
  | invoke (f : FuncPtr)
  deriving DecidableEq, Repr

/-- Result of running a hook: its action trace and its return value
(Unit, since the C hook returns void). -/
structure HookRun where
  trace : List Action
  ret : Unit
  deriving DecidableEq, Repr

/-- The stderr line printed at line 22 of the C file. -/
def initMsg : String := "[sqlite-vec] Initializing...\n"

/-- The stderr line printed at line 28 of the C file. -/
def successMsg : String :=
  "[sqlite-vec] SUCCESS: Registered with ExpoSQLite (exsqlite3)\n"

/-- The stderr line printed at line 30 of the C file; %d renders the status
code in decimal. -/
def failureMsg (rc : Int) : String :=
  "[sqlite-vec] FAILURE: Could not register extension (Error: " ++
    toString rc ++ ")\n"

/-- The hook register_sqlite_vec (lines 21 to 32 of the C file), embedded as
a function of the external registration call, which is modelled by the
status it returns for a given entry-point argument. The trace lists the
actions of the hook in program order. -/
def register_sqlite_vec (reg : FuncPtr → Int) : HookRun :=
  let t0 : List Action := [Action.writeStderr initMsg]
  let rc : Int := reg (castToLoadextEntry FuncPtr.sqlite3_vec_init)
  let t1 : List Action := t0 ++
    [Action.callRegistration "exsqlite3_auto_extension"
      (castToLoadextEntry FuncPtr.sqlite3_vec_init)]
  let t2 : List Action :=
    if rc = 0 then
      t1 ++ [Action.writeStderr successMsg]
    else
      t1 ++ [Action.writeStderr (failureMsg rc)]
  { trace := t2, ret := () }

/-- The C prototype facts of a function definition. -/
structure CFunctionDecl where
  name : String
  params : List String
  ret : String
  isConstructor : Bool
  deriving DecidableEq, Repr

/-- The declaration at line 21 of the C file:
attribute((constructor)) void register_sqlite_vec(void). -/
def register_sqlite_vec_decl : CFunctionDecl :=
  { name := "register_sqlite_vec"
    params := []
    ret := "void"
    isConstructor := true }

/-- Modelled from the spec: the second registrar variant of the repository
(the C file targeting a standard SQLite build) is not present under src/.
Per spec sections 1, 4.1 and 7, it registers the same entry point under the
standard symbol sqlite3_auto_extension and ignores the returned status
entirely, surfacing no failure information (no diagnostics at all). -/
def register_sqlite_vec_standard (reg : FuncPtr → Int) : HookRun :=
  let _rc : Int := reg (castToLoadextEntry FuncPtr.sqlite3_vec_init)
  { trace := [Action.callRegistration "sqlite3_auto_extension"
      (castToLoadextEntry FuncPtr.sqlite3_vec_init)]
    ret := () }

/-- Recognizes a registration-call action. -/
def isRegCall : Action → Bool
  | Action.callRegistration _ _ => true
  | _ => false

/-- Recognizes a stderr-write action. -/
def isStderr : Action → Bool
  | Action.writeStderr _ => true
  | _ => false

/-- Recognizes a direct invocation of a function pointer. -/
def isInvoke : Action → Bool
  | Action.invoke _ => true
  | _ => false

/-- The sequence of strings a trace writes to the standard error stream. -/
def stderrLines (t : List Action) : List String :=
  t.filterMap fun a => match a with
    | Action.writeStderr s => some s
    | _ => none

/-- The failure line never coincides with the success line, whatever the
status code: the two differ already at character index 13. -/
theorem failureMsg_ne_successMsg (rc : Int) : failureMsg rc ≠ successMsg := by
  intro h
  have h1 : (failureMsg rc).data.take 14 = successMsg.data.take 14 := by rw [h]
  rw [failureMsg] at h1
  rw [String.append_assoc] at h1
  rw [String.data_append] at h1
  rw [List.take_append_of_le_length (by decide)] at h1
  exact absurd h1 (by decide)

/-- Claim C1: on every invocation, the hook makes exactly one registration
call, through the vendored symbol exsqlite3_auto_extension, and its sole
argument is the address of sqlite3_vec_init cast to the loader entry-point
type: the sublist of registration-call actions in the trace is exactly that
one call. -/
theorem c1_registers_exactly_once (reg : FuncPtr → Int) :
    (register_sqlite_vec reg).trace.filter isRegCall =
      [Action.callRegistration "exsqlite3_auto_extension"
        (castToLoadextEntry FuncPtr.sqlite3_vec_init)] := by
  by_cases h : reg (castToLoadextEntry FuncPtr.sqlite3_vec_init) = 0 <;>
    simp [register_sqlite_vec, h, isRegCall]

/-- Claim C2: for every status returned by the registration call, the hook
emits a diagnostic to stderr distinguishing success from failure: its stderr
output is the start line followed by the success line when the status is
zero, and by the failure line naming the numeric status otherwise. -/
theorem c2_status_checked_and_reported (reg : FuncPtr → Int) :
    stderrLines (register_sqlite_vec reg).trace =
      [initMsg,
       if reg (castToLoadextEntry FuncPtr.sqlite3_vec_init) = 0 then successMsg
       else failureMsg (reg (castToLoadextEntry FuncPtr.sqlite3_vec_init))] := by
  by_cases h : reg (castToLoadextEntry FuncPtr.sqlite3_vec_init) = 0 <;>
    simp [register_sqlite_vec, h, stderrLines]

/-- Claim C3: for every returned status, including every non-zero one, the
hook neither aborts nor retries: the trace contains exactly one
registration-call action, and the hook terminates normally, its last action
being the outcome diagnostic written to stderr. -/
theorem c3_no_retry_no_abort (reg : FuncPtr → Int) :
    (register_sqlite_vec reg).trace.countP isRegCall = 1 ∧
    (register_sqlite_vec reg).trace.getLast? =
      some (Action.writeStderr
        (if reg (castToLoadextEntry FuncPtr.sqlite3_vec_init) = 0 then successMsg
         else failureMsg (reg (castToLoadextEntry FuncPtr.sqlite3_vec_init)))) := by
  by_cases h : reg (castToLoadextEntry FuncPtr.sqlite3_vec_init) = 0 <;>
    simp [register_sqlite_vec, h, isRegCall]

/-- Claim C4: on every invocation the trace is exactly: the
initialization-start line written to stderr, then the registration call,
then exactly one further stderr line, the success line or the failure
line. -/
theorem c4_start_line_then_one_outcome (reg : FuncPtr → Int) :
    (register_sqlite_vec reg).trace =
      [Action.writeStderr initMsg,
       Action.callRegistration "exsqlite3_auto_extension"
         (castToLoadextEntry FuncPtr.sqlite3_vec_init),
       Action.writeStderr
         (if reg (castToLoadextEntry FuncPtr.sqlite3_vec_init) = 0 then successMsg
          else failureMsg (reg (castToLoadextEntry FuncPtr.sqlite3_vec_init)))] := by
  by_cases h : reg (castToLoadextEntry FuncPtr.sqlite3_vec_init) = 0 <;>
    simp [register_sqlite_vec, h]

/-- Claim C5: the only side effects of the hook are the single registration
call, which is the one mutation of the process-wide auto-extension state of
the host, and stderr writes: every action in the trace is a registration
call or a stderr write, the registration call occurs exactly once, and the
hook returns nothing. -/
theorem c5_effect_frame (reg : FuncPtr → Int) :
    ((register_sqlite_vec reg).trace.all fun a => isRegCall a || isStderr a) = true ∧
    (register_sqlite_vec reg).trace.countP isRegCall = 1 ∧
    (register_sqlite_vec reg).ret = () := by
  by_cases h : reg (castToLoadextEntry FuncPtr.sqlite3_vec_init) = 0 <;>
    simp [register_sqlite_vec, h, isRegCall, isStderr]

/-- Claim C6: the hook is a parameterless C function returning void, and the
embedded hook accordingly returns the unique value of Unit for every
behavior of the external registration call. -/
theorem c6_void_and_parameterless :
    register_sqlite_vec_decl.params = [] ∧
    register_sqlite_vec_decl.ret = "void" ∧
    ∀ reg : FuncPtr → Int, (register_sqlite_vec reg).ret = () := by
  refine ⟨rfl, rfl, fun reg => rfl⟩

/-- Claim C7: the second registrar variant (modelled from the spec, since
its C file is absent from src/) registers the same entry point under the
standard symbol sqlite3_auto_extension, and ignores the returned status
entirely: its whole run is one registration call, with no stderr output,
and is the same for every behavior of the registration call. -/
theorem c7_standard_variant (reg regB : FuncPtr → Int) :
    (register_sqlite_vec_standard reg).trace =
      [Action.callRegistration "sqlite3_auto_extension"
        (castToLoadextEntry FuncPtr.sqlite3_vec_init)] ∧
    stderrLines (register_sqlite_vec_standard reg).trace = [] ∧
    register_sqlite_vec_standard reg = register_sqlite_vec_standard regB := by
  refine ⟨rfl, rfl, rfl⟩

/-- Claim C8: per invocation exactly one of the success and failure lines
is emitted, never both and never neither: the stderr output ends in the
success line exactly when the returned status is zero and in the failure
line naming the status otherwise, negative statuses included, and for no
status do the two lines coincide. -/
theorem c8_one_outcome_iff_zero (reg : FuncPtr → Int) :
    stderrLines (register_sqlite_vec reg).trace =
      [initMsg,
       if reg (castToLoadextEntry FuncPtr.sqlite3_vec_init) = 0 then successMsg
       else failureMsg (reg (castToLoadextEntry FuncPtr.sqlite3_vec_init))] ∧
    ∀ rc : Int, failureMsg rc ≠ successMsg := by
  constructor
  · by_cases h : reg (castToLoadextEntry FuncPtr.sqlite3_vec_init) = 0 <;>
      simp [register_sqlite_vec, h, stderrLines]
  · exact failureMsg_ne_successMsg

/-- Witness for claim C8: at a registration call returning the negative
status -7, the hook emits the start line and then the failure line naming
-7, and that failure line differs from the success line. -/
theorem c8_one_outcome_iff_zero_witness :
    stderrLines (register_sqlite_vec fun _ => (-7 : Int)).trace =
      [initMsg,
       if (-7 : Int) = 0 then successMsg else failureMsg (-7)] ∧
    ∀ rc : Int, failureMsg rc ≠ successMsg :=
  c8_one_outcome_iff_zero (fun _ => (-7 : Int))

/-- Claim C9: the hook is deterministic in the registration status: two
executions in which the registration call returns the same status have
identical runs, the stderr output included. -/
theorem c9_deterministic_in_status (regA regB : FuncPtr → Int)
    (h : regA (castToLoadextEntry FuncPtr.sqlite3_vec_init) =
         regB (castToLoadextEntry FuncPtr.sqlite3_vec_init)) :
    register_sqlite_vec regA = register_sqlite_vec regB := by
  simp [register_sqlite_vec, h]

/-- Witness for claim C9: two distinct behaviors of the registration call
that agree on the status returned for the entry point yield identical
runs. -/
theorem c9_deterministic_in_status_witness :
    register_sqlite_vec (fun _ => (5 : Int)) =
      register_sqlite_vec (fun f => if f = FuncPtr.sqlite3_vec_init then 5 else 9) :=
  c9_deterministic_in_status (fun _ => (5 : Int))
    (fun f => if f = FuncPtr.sqlite3_vec_init then 5 else 9) (by decide)

/-- Claim C10: the hook never invokes the entry point sqlite3_vec_init
itself: the trace contains no direct invocation, the only registration call
passes the entry point cast to the loader entry type, and that cast leaves
the pointer value unchanged. -/
theorem c10_entry_point_only_forwarded (reg : FuncPtr → Int) :
    (register_sqlite_vec reg).trace.countP isInvoke = 0 ∧
    (register_sqlite_vec reg).trace.filter isRegCall =
      [Action.callRegistration "exsqlite3_auto_extension"
        (castToLoadextEntry FuncPtr.sqlite3_vec_init)] ∧
    castToLoadextEntry FuncPtr.sqlite3_vec_init = FuncPtr.sqlite3_vec_init := by
  refine ⟨?_, ?_, rfl⟩ <;>
    by_cases h : reg (castToLoadextEntry FuncPtr.sqlite3_vec_init) = 0 <;>
      simp [register_sqlite_vec, h, isInvoke, isRegCall]

end MarinersAiGrid
